import Mathlib

/-!
Shallow embedding of `src-tauri/src/main.rs` from the promptlibrary-explorer
repository.  The four Tauri commands (`get_file_metadata`,
`copy_image_to_clipboard`, `move_to_trash`, `reveal_in_file_manager`) are
modelled as pure functions over an explicit oracle describing the outcomes of
the OS calls they delegate to (`Path::exists`, `fs::metadata`,
`image::image_dimensions`, `trash::delete`, process spawning, clipboard
access, `image::load_from_memory`).  Each command returns its `Result` value
together with the trace of OS operations it performed, so that claims of the
form "fails before touching the OS" become statements about the trace.
Errors are the literal `String` messages the Rust code produces.
-/

namespace PromptLibraryExplorer

/-- Model of `std::process::ExitStatus`: whether `success()` holds and the
string its `Display` implementation produces (used in `format!`). -/
structure ExitStatus where
  success : Bool
  display : String
deriving DecidableEq, Repr

/-- Model of a `std::time::SystemTime` value as used here: the outcome of
`duration_since(UNIX_EPOCH).ok().map(as_millis)` — `none` when
`duration_since` fails (pre-epoch time), otherwise the millisecond count
(a `u128` value, hence an arbitrary natural here). -/
structure SystemTimeModel where
  sinceEpochMillis : Option Nat
deriving DecidableEq, Repr

/-- Model of the `fs::Metadata` value: the outcome of `metadata.modified()`,
`none` when that OS call errors. -/
structure FileMetadata where
  modified : Option SystemTimeModel
deriving DecidableEq, Repr

/-- Semantics of the `std::path::Path` accessors the code uses, abstracted
as an oracle: `file_name().and_then(to_str)`, `extension().and_then(to_str)`
and `parent()` on a given path string. -/
structure PathSem where
  fileName : String → Option String
  extensionOf : String → Option String
  parent : String → Option String

/-- Oracle for the filesystem and process OS calls: `Path::exists`,
`Path::is_dir`, `fs::metadata`, `image::image_dimensions`, `trash::delete`,
and `Command::status` (command name and argument list, yielding either a
spawn error message or an exit status). -/
structure OS where
  pathExists : String → Bool
  isDir : String → Bool
  metadata : String → Except String FileMetadata
  image_dimensions : String → Except String (Nat × Nat)
  trashDelete : String → Except String Unit
  spawnStatus : String → List String → Except String ExitStatus

/-- A decoded `image::DynamicImage`: its dimensions and the raw RGBA bytes
produced by `to_rgba8().into_raw()`. -/
structure DecodedImage where
  width : Nat
  height : Nat
  rgba : List Nat
deriving DecidableEq, Repr

/-- Oracle for the clipboard command: `image::load_from_memory`,
`arboard::Clipboard::new`, and `Clipboard::set_image` (width, height, raw
bytes). -/
structure ClipboardOS where
  load_from_memory : List Nat → Except String DecodedImage
  clipboardNew : Except String Unit
  set_image : Nat → Nat → List Nat → Except String Unit

/-- The OS-visible operations a command may perform, recorded as a trace. -/
inductive OSOp where
  | existsCheck (p : String)
  | isDirCheck (p : String)
  | metadataRead (p : String)
  | imageDimRead (p : String)
  | trashMove (p : String)
  | spawn (cmd : String) (args : List String)
  | decode
  | clipboardAcquire
  | clipboardWrite
deriving DecidableEq, Repr

/-- The value `u64::MAX`. -/
def u64Max : Nat := 2 ^ 64 - 1

/-- Model of `str::trim`: drop leading and trailing whitespace characters
(structural, so that concrete inputs evaluate in the kernel). -/
def rustTrim (s : String) : String :=
  String.mk
    (((s.data.dropWhile Char.isWhitespace).reverse.dropWhile Char.isWhitespace).reverse)

/-- Model of `str::to_uppercase`, uppercasing character by character
(ASCII-faithful; the labels involved here are ASCII). -/
def toUppercase (s : String) : String :=
  String.mk (s.data.map Char.toUpper)

/-- Model of `str::to_lowercase`, lowercasing character by character
(ASCII-faithful). -/
def toLowercase (s : String) : String :=
  String.mk (s.data.map Char.toLower)

/-- Embedding of `describe_file_type` (main.rs lines 22-35). -/
def describe_file_type (extension : String) : String :=
  match extension with
  | "png" => "PNG Image"
  | "jpg" | "jpeg" => "JPEG Image"
  | "gif" => "GIF Image"
  | "bmp" => "Bitmap Image"
  | "webp" => "WebP Image"
  | "tiff" | "tif" => "TIFF Image"
  | "plib" => "Prompt Library File"
  | "aoe" => "Art Official Elements File"
  | "" => "File"
  | other => toUppercase other ++ " File"

/-- Result record of `get_file_metadata` (struct `FileMetadataResult`). -/
structure FileMetadataResult where
  file_name : String
  file_type : String
  width : Option Nat
  height : Option Nat
  modified_ms : Option Nat
deriving DecidableEq, Repr

/-- Embedding of `get_file_metadata` (main.rs lines 37-92), returning the
`Result` together with the trace of OS operations performed. -/
def get_file_metadata (ps : PathSem) (os : OS) (target_path : String) :
    Except String FileMetadataResult × List OSOp :=
  let trimmed := rustTrim target_path
  if trimmed = "" then
    (Except.error "Target path was empty.", [])
  else if !(os.pathExists trimmed) then
    (Except.error ("Path does not exist: " ++ trimmed), [OSOp.existsCheck trimmed])
  else
    match os.metadata trimmed with
    | Except.error err =>
        (Except.error err, [OSOp.existsCheck trimmed, OSOp.metadataRead trimmed])
    | Except.ok metadata =>
        let file_name := (ps.fileName trimmed).getD trimmed
        let extension := toLowercase ((ps.extensionOf trimmed).getD "")
        let file_type := describe_file_type extension
        let modified_ms :=
          (metadata.modified.bind (fun time => time.sinceEpochMillis)).map
            (fun millis => if millis > u64Max then u64Max else millis)
        let dims : (Option Nat × Option Nat) × List OSOp :=
          match extension with
          | "png" | "jpg" | "jpeg" | "gif" | "bmp" | "webp" | "tiff" | "tif" =>
              (match os.image_dimensions trimmed with
               | Except.ok (w, h) => ((some w, some h), [OSOp.imageDimRead trimmed])
               | Except.error _ => ((none, none), [OSOp.imageDimRead trimmed]))
          | _ => ((none, none), [])
        (Except.ok { file_name := file_name, file_type := file_type,
                     width := dims.1.1, height := dims.1.2,
                     modified_ms := modified_ms },
         [OSOp.existsCheck trimmed, OSOp.metadataRead trimmed] ++ dims.2)

/-- Embedding of `copy_image_to_clipboard` (main.rs lines 94-112). -/
def copy_image_to_clipboard (cos : ClipboardOS) (image_data : List Nat) :
    Except String Unit × List OSOp :=
  if image_data = [] then
    (Except.error "Image data was empty.", [])
  else
    match cos.load_from_memory image_data with
    | Except.error err => (Except.error err, [OSOp.decode])
    | Except.ok image =>
        match cos.clipboardNew with
        | Except.error err =>
            (Except.error err, [OSOp.decode, OSOp.clipboardAcquire])
        | Except.ok _ =>
            match cos.set_image image.width image.height image.rgba with
            | Except.error err =>
                (Except.error err,
                 [OSOp.decode, OSOp.clipboardAcquire, OSOp.clipboardWrite])
            | Except.ok _ =>
                (Except.ok (),
                 [OSOp.decode, OSOp.clipboardAcquire, OSOp.clipboardWrite])

/-- Embedding of `move_to_trash` (main.rs lines 114-127). -/
def move_to_trash (os : OS) (target_path : String) :
    Except String Unit × List OSOp :=
  let trimmed := rustTrim target_path
  if trimmed = "" then
    (Except.error "Target path was empty.", [])
  else if !(os.pathExists trimmed) then
    (Except.error ("Path does not exist: " ++ trimmed), [OSOp.existsCheck trimmed])
  else
    match os.trashDelete trimmed with
    | Except.error err =>
        (Except.error err, [OSOp.existsCheck trimmed, OSOp.trashMove trimmed])
    | Except.ok _ =>
        (Except.ok (), [OSOp.existsCheck trimmed, OSOp.trashMove trimmed])

/-- The `.status().map_err(to_string).and_then(success check)` pattern each
reveal strategy repeats: a spawn failure becomes the OS message, a
non-success exit status becomes "<tool> exited with status: <status>". -/
def runCommandStatus (os : OS) (cmd : String) (args : List String)
    (tool : String) : Except String Unit :=
  match os.spawnStatus cmd args with
  | Except.error err => Except.error err
  | Except.ok status =>
      if status.success then Except.ok ()
      else Except.error (tool ++ " exited with status: " ++ status.display)

/-- Embedding of `reveal_on_macos` (main.rs lines 160-174):
`open -R <path>`. -/
def reveal_on_macos (os : OS) (path : String) :
    Except String Unit × List OSOp :=
  (runCommandStatus os "open" ["-R", path] "open -R",
   [OSOp.spawn "open" ["-R", path]])

/-- Embedding of `reveal_on_windows` (main.rs lines 176-208): a directory is
opened directly, a file is passed as the single argument `/select,` ++ path
(the `OsString::push` concatenation, no separator). -/
def reveal_on_windows (os : OS) (path : String) :
    Except String Unit × List OSOp :=
  if os.isDir path then
    (runCommandStatus os "explorer" [path] "explorer",
     [OSOp.isDirCheck path, OSOp.spawn "explorer" [path]])
  else
    let selector := "/select," ++ path
    (runCommandStatus os "explorer" [selector] "explorer",
     [OSOp.isDirCheck path, OSOp.spawn "explorer" [selector]])

/-- Embedding of `reveal_on_unix` (main.rs lines 210-232): the folder handed
to `xdg-open` is the path itself for a directory, otherwise
`parent().map(to_path_buf).unwrap_or_else(PathBuf::from("/"))`. -/
def reveal_on_unix (ps : PathSem) (os : OS) (path : String) :
    Except String Unit × List OSOp :=
  let folder :=
    if os.isDir path then path
    else
      match ps.parent path with
      | some parentDir => parentDir
      | none => "/"
  (runCommandStatus os "xdg-open" [folder] "xdg-open",
   [OSOp.isDirCheck path, OSOp.spawn "xdg-open" [folder]])

/-- The compile-time target platform selecting the reveal strategy. -/
inductive Platform where
  | macos
  | windows
  | otherUnix
  | unsupported
deriving DecidableEq, Repr

/-- Embedding of `reveal_in_file_manager` (main.rs lines 129-158): trim,
reject blank, reject non-existing, then dispatch on the compiled platform. -/
def reveal_in_file_manager (plat : Platform) (ps : PathSem) (os : OS)
    (target_path : String) : Except String Unit × List OSOp :=
  let trimmed := rustTrim target_path
  if trimmed = "" then
    (Except.error "Path was empty.", [])
  else if !(os.pathExists trimmed) then
    (Except.error ("Path does not exist: " ++ trimmed), [OSOp.existsCheck trimmed])
  else
    let inner :=
      match plat with
      | Platform.macos => reveal_on_macos os trimmed
      | Platform.windows => reveal_on_windows os trimmed
      | Platform.otherUnix => reveal_on_unix ps os trimmed
      | Platform.unsupported =>
          (Except.error "Reveal in file manager is not supported on this platform.", [])
    (inner.1, OSOp.existsCheck trimmed :: inner.2)

/-- The extension-to-label mapping exactly as claim C2 states it: the five
listed mappings, the empty extension, and every extension outside that list
mapped to its uppercase form followed by " File". -/
def claimedFileTypeC2 (extension : String) : String :=
  if extension = "png" then "PNG Image"
  else if extension = "jpg" ∨ extension = "jpeg" then "JPEG Image"
  else if extension = "plib" then "Prompt Library File"
  else if extension = "aoe" then "Art Official Elements File"
  else if extension = "" then "File"
  else toUppercase extension ++ " File"

/-- The extension-to-label mapping with the image extensions the code also
recognizes (`gif`, `bmp`, `webp`, `tiff`/`tif`) added to the table; every
extension outside the table maps to uppercase plus " File". -/
def amendedFileTypeTable (extension : String) : String :=
  if extension = "png" then "PNG Image"
  else if extension = "jpg" ∨ extension = "jpeg" then "JPEG Image"
  else if extension = "gif" then "GIF Image"
  else if extension = "bmp" then "Bitmap Image"
  else if extension = "webp" then "WebP Image"
  else if extension = "tiff" ∨ extension = "tif" then "TIFF Image"
  else if extension = "plib" then "Prompt Library File"
  else if extension = "aoe" then "Art Official Elements File"
  else if extension = "" then "File"
  else toUppercase extension ++ " File"

/-- C2 (counterexample): the claim's mapping sends "gif" to "GIF File", but
`describe_file_type` has "gif" in its table and returns "GIF Image". -/
theorem describe_file_type_gif_breaks_claim :
    describe_file_type "gif" ≠ claimedFileTypeC2 "gif" := by
  decide

/-- C2 (amended): `describe_file_type` agrees everywhere with the table that
also lists the gif/bmp/webp/tiff/tif image labels, and maps every extension
outside the table to its uppercase form followed by " File". -/
theorem describe_file_type_matches_amended_table (s : String) :
    describe_file_type s = amendedFileTypeTable s := by
  unfold describe_file_type amendedFileTypeTable
  split <;> simp_all

/-- C3: on an input that is empty after trimming (and an empty byte buffer
for the clipboard command), each of the four commands fails with its
invalid-input message and performs no OS operation at all (empty trace). -/
theorem blank_input_rejected_before_os (ps : PathSem) (os : OS)
    (cos : ClipboardOS) (plat : Platform) (s : String) (h : rustTrim s = "") :
    get_file_metadata ps os s = (Except.error "Target path was empty.", []) ∧
    move_to_trash os s = (Except.error "Target path was empty.", []) ∧
    reveal_in_file_manager plat ps os s = (Except.error "Path was empty.", []) ∧
    copy_image_to_clipboard cos [] = (Except.error "Image data was empty.", []) := by
  refine ⟨?_, ?_, ?_, ?_⟩ <;>
    simp [get_file_metadata, move_to_trash, reveal_in_file_manager,
          copy_image_to_clipboard, h]

/-- Path oracle used by concrete witnesses: every path has file name "f.txt",
extension "txt" and parent "/w". -/
def psW : PathSem :=
  { fileName := fun _ => some "f.txt"
    extensionOf := fun _ => some "txt"
    parent := fun _ => some "/w" }

/-- OS oracle used by concrete witnesses: nothing exists, every OS call
fails. -/
def osMissing : OS :=
  { pathExists := fun _ => false
    isDir := fun _ => false
    metadata := fun _ => Except.error "metadata io error"
    image_dimensions := fun _ => Except.error "not an image"
    trashDelete := fun _ => Except.error "trash io error"
    spawnStatus := fun _ _ => Except.error "spawn io error" }

/-- Clipboard oracle used by concrete witnesses: decoding always fails. -/
def cosBad : ClipboardOS :=
  { load_from_memory := fun _ => Except.error "bad image data"
    clipboardNew := Except.ok ()
    set_image := fun _ _ _ => Except.ok () }

/-- C3 witness: the rejection theorem applied at the whitespace-only input
"  " with concrete oracles. -/
theorem blank_input_rejected_before_os_witness :
    rustTrim "  " = "" ∧
    (get_file_metadata psW osMissing "  " = (Except.error "Target path was empty.", []) ∧
     move_to_trash osMissing "  " = (Except.error "Target path was empty.", []) ∧
     reveal_in_file_manager Platform.otherUnix psW osMissing "  " =
       (Except.error "Path was empty.", []) ∧
     copy_image_to_clipboard cosBad [] = (Except.error "Image data was empty.", [])) :=
  ⟨by decide,
   blank_input_rejected_before_os psW osMissing cosBad Platform.otherUnix "  " (by decide)⟩

/-- C4: on a non-blank path that does not exist, each of `get_file_metadata`,
`move_to_trash` and `reveal_in_file_manager` fails with the not-found message
and the trace holds only the existence check: no metadata read, no trash
move, no spawn. -/
theorem missing_path_rejected_notfound (ps : PathSem) (os : OS)
    (plat : Platform) (s : String) (h1 : rustTrim s ≠ "")
    (h2 : os.pathExists (rustTrim s) = false) :
    get_file_metadata ps os s =
      (Except.error ("Path does not exist: " ++ rustTrim s),
       [OSOp.existsCheck (rustTrim s)]) ∧
    move_to_trash os s =
      (Except.error ("Path does not exist: " ++ rustTrim s),
       [OSOp.existsCheck (rustTrim s)]) ∧
    reveal_in_file_manager plat ps os s =
      (Except.error ("Path does not exist: " ++ rustTrim s),
       [OSOp.existsCheck (rustTrim s)]) := by
  refine ⟨?_, ?_, ?_⟩ <;>
    simp [get_file_metadata, move_to_trash, reveal_in_file_manager, h1, h2]

/-- C4 witness: the not-found theorem applied at the concrete path "/missing"
with an oracle on which nothing exists. -/
theorem missing_path_rejected_notfound_witness :
    rustTrim "/missing" ≠ "" ∧
    osMissing.pathExists (rustTrim "/missing") = false ∧
    (get_file_metadata psW osMissing "/missing" =
       (Except.error ("Path does not exist: " ++ rustTrim "/missing"),
        [OSOp.existsCheck (rustTrim "/missing")]) ∧
     move_to_trash osMissing "/missing" =
       (Except.error ("Path does not exist: " ++ rustTrim "/missing"),
        [OSOp.existsCheck (rustTrim "/missing")]) ∧
     reveal_in_file_manager Platform.macos psW osMissing "/missing" =
       (Except.error ("Path does not exist: " ++ rustTrim "/missing"),
        [OSOp.existsCheck (rustTrim "/missing")])) :=
  ⟨by decide, by decide,
   missing_path_rejected_notfound psW osMissing Platform.macos "/missing"
     (by decide) (by decide)⟩

/-- C5: on a non-empty buffer whose decoding fails, `copy_image_to_clipboard`
returns the decoder's error, and the trace holds only the decode attempt: the
clipboard is never acquired and never written. -/
theorem clipboard_decode_failure_leaves_clipboard (cos : ClipboardOS)
    (buf : List Nat) (e : String) (h1 : buf ≠ [])
    (h2 : cos.load_from_memory buf = Except.error e) :
    (copy_image_to_clipboard cos buf).1 = Except.error e ∧
    (copy_image_to_clipboard cos buf).2 = [OSOp.decode] ∧
    OSOp.clipboardAcquire ∉ (copy_image_to_clipboard cos buf).2 ∧
    OSOp.clipboardWrite ∉ (copy_image_to_clipboard cos buf).2 := by
  refine ⟨?_, ?_, ?_, ?_⟩ <;> simp [copy_image_to_clipboard, h1, h2]

/-- C5 witness: the decode-failure theorem applied at the concrete buffer
[0] with an oracle whose decoder always fails. -/
theorem clipboard_decode_failure_leaves_clipboard_witness :
    ([0] : List Nat) ≠ [] ∧
    cosBad.load_from_memory [0] = Except.error "bad image data" ∧
    ((copy_image_to_clipboard cosBad [0]).1 = Except.error "bad image data" ∧
     (copy_image_to_clipboard cosBad [0]).2 = [OSOp.decode] ∧
     OSOp.clipboardAcquire ∉ (copy_image_to_clipboard cosBad [0]).2 ∧
     OSOp.clipboardWrite ∉ (copy_image_to_clipboard cosBad [0]).2) :=
  ⟨by decide, by rfl,
   clipboard_decode_failure_leaves_clipboard cosBad [0] "bad image data"
     (by decide) (by rfl)⟩

/-- The containing folder as claim C1 words it: the path itself when it is a
directory, otherwise its parent directory, and the filesystem root "/" when
the path has no parent. -/
def claimedRevealFolder (ps : PathSem) (os : OS) (path : String) : String :=
  if os.isDir path then path
  else
    match ps.parent path with
    | some parentDir => parentDir
    | none => "/"

/-- C1: on the generic-opener strategy, for an existing path the dispatcher
hands `xdg-open` exactly the containing folder of claim C1 (the path for a
directory, else the parent, else the root "/"); in particular on a file whose
parent differs from it, the opener is never invoked on the file itself. -/
theorem unix_reveal_opens_containing_folder (ps : PathSem) (os : OS)
    (s : String) (h1 : rustTrim s ≠ "")
    (h2 : os.pathExists (rustTrim s) = true) :
    (reveal_in_file_manager Platform.otherUnix ps os s).2 =
      [OSOp.existsCheck (rustTrim s), OSOp.isDirCheck (rustTrim s),
       OSOp.spawn "xdg-open" [claimedRevealFolder ps os (rustTrim s)]] ∧
    (os.isDir (rustTrim s) = false → ps.parent (rustTrim s) = none →
      claimedRevealFolder ps os (rustTrim s) = "/") ∧
    (os.isDir (rustTrim s) = false →
      ∀ q, ps.parent (rustTrim s) = some q → q ≠ rustTrim s →
        ∀ args, OSOp.spawn "xdg-open" args ∈
            (reveal_in_file_manager Platform.otherUnix ps os s).2 →
          args ≠ [rustTrim s]) := by
  have htrace : (reveal_in_file_manager Platform.otherUnix ps os s).2 =
      [OSOp.existsCheck (rustTrim s), OSOp.isDirCheck (rustTrim s),
       OSOp.spawn "xdg-open" [claimedRevealFolder ps os (rustTrim s)]] := by
    simp [reveal_in_file_manager, reveal_on_unix, claimedRevealFolder, h1, h2]
  refine ⟨htrace, ?_, ?_⟩
  · intro hdir hpar
    simp [claimedRevealFolder, hdir, hpar]
  · intro hdir q hpar hq args hmem
    rw [htrace] at hmem
    have hfolder : claimedRevealFolder ps os (rustTrim s) = q := by
      simp [claimedRevealFolder, hdir, hpar]
    simp only [List.mem_cons, List.not_mem_nil, or_false] at hmem
    rcases hmem with hmem | hmem | hmem
    · exact absurd hmem (by simp)
    · exact absurd hmem (by simp)
    · injection hmem with hc ha
      rw [ha, hfolder]
      simp [hq]

/-- OS oracle used by concrete witnesses: every path exists, nothing is a
directory, every OS call succeeds. -/
def osExisting : OS :=
  { pathExists := fun _ => true
    isDir := fun _ => false
    metadata := fun _ =>
      Except.ok { modified := some { sinceEpochMillis := some 1700000000000 } }
    image_dimensions := fun _ => Except.ok (10, 20)
    trashDelete := fun _ => Except.ok ()
    spawnStatus := fun _ _ => Except.ok { success := true, display := "exit status: 0" } }

/-- C1 witness: the containing-folder theorem applied at the existing file
"/w/f.txt", whose parent under `psW` is "/w". -/
theorem unix_reveal_opens_containing_folder_witness :
    rustTrim "/w/f.txt" ≠ "" ∧
    osExisting.pathExists (rustTrim "/w/f.txt") = true ∧
    ((reveal_in_file_manager Platform.otherUnix psW osExisting "/w/f.txt").2 =
       [OSOp.existsCheck (rustTrim "/w/f.txt"), OSOp.isDirCheck (rustTrim "/w/f.txt"),
        OSOp.spawn "xdg-open" [claimedRevealFolder psW osExisting (rustTrim "/w/f.txt")]] ∧
     (osExisting.isDir (rustTrim "/w/f.txt") = false →
       psW.parent (rustTrim "/w/f.txt") = none →
       claimedRevealFolder psW osExisting (rustTrim "/w/f.txt") = "/") ∧
     (osExisting.isDir (rustTrim "/w/f.txt") = false →
       ∀ q, psW.parent (rustTrim "/w/f.txt") = some q → q ≠ rustTrim "/w/f.txt" →
         ∀ args, OSOp.spawn "xdg-open" args ∈
             (reveal_in_file_manager Platform.otherUnix psW osExisting "/w/f.txt").2 →
           args ≠ [rustTrim "/w/f.txt"])) :=
  ⟨by decide, by decide,
   unix_reveal_opens_containing_folder psW osExisting "/w/f.txt" (by decide) (by decide)⟩

/-- C6: on the explorer-style strategy, an existing directory is passed to
the file browser as a bare path, and an existing file as the single argument
"/select," concatenated immediately with the path (no separator). -/
theorem windows_reveal_argument_shape (ps : PathSem) (os : OS) (s : String)
    (h1 : rustTrim s ≠ "") (h2 : os.pathExists (rustTrim s) = true) :
    (os.isDir (rustTrim s) = true →
      (reveal_in_file_manager Platform.windows ps os s).2 =
        [OSOp.existsCheck (rustTrim s), OSOp.isDirCheck (rustTrim s),
         OSOp.spawn "explorer" [rustTrim s]]) ∧
    (os.isDir (rustTrim s) = false →
      (reveal_in_file_manager Platform.windows ps os s).2 =
        [OSOp.existsCheck (rustTrim s), OSOp.isDirCheck (rustTrim s),
         OSOp.spawn "explorer" ["/select," ++ rustTrim s]]) := by
  constructor <;> intro hdir <;>
    simp [reveal_in_file_manager, reveal_on_windows, h1, h2, hdir]

/-- C6 witness: the explorer argument theorem applied at the existing file
"/w/f.txt" (not a directory under `osExisting`). -/
theorem windows_reveal_argument_shape_witness :
    rustTrim "/w/f.txt" ≠ "" ∧
    osExisting.pathExists (rustTrim "/w/f.txt") = true ∧
    ((osExisting.isDir (rustTrim "/w/f.txt") = true →
       (reveal_in_file_manager Platform.windows psW osExisting "/w/f.txt").2 =
         [OSOp.existsCheck (rustTrim "/w/f.txt"), OSOp.isDirCheck (rustTrim "/w/f.txt"),
          OSOp.spawn "explorer" [rustTrim "/w/f.txt"]]) ∧
     (osExisting.isDir (rustTrim "/w/f.txt") = false →
       (reveal_in_file_manager Platform.windows psW osExisting "/w/f.txt").2 =
         [OSOp.existsCheck (rustTrim "/w/f.txt"), OSOp.isDirCheck (rustTrim "/w/f.txt"),
          OSOp.spawn "explorer" ["/select," ++ rustTrim "/w/f.txt"]])) :=
  ⟨by decide, by decide,
   windows_reveal_argument_shape psW osExisting "/w/f.txt" (by decide) (by decide)⟩

/-- C7: for every strategy, a spawn failure surfaces the OS message, a
non-success exit status yields an error message ending in the reported
status, the result is success exactly when the child exits successfully, and
each strategy's result is exactly this status handling applied to its own
command line. -/
theorem reveal_status_error_handling (ps : PathSem) (os : OS) (path : String)
    (cmd tool : String) (args : List String) :
    (∀ e, os.spawnStatus cmd args = Except.error e →
        runCommandStatus os cmd args tool = Except.error e) ∧
    (∀ st, os.spawnStatus cmd args = Except.ok st → st.success = false →
        runCommandStatus os cmd args tool =
          Except.error (tool ++ " exited with status: " ++ st.display)) ∧
    (runCommandStatus os cmd args tool = Except.ok () ↔
      ∃ st, os.spawnStatus cmd args = Except.ok st ∧ st.success = true) ∧
    (reveal_on_macos os path).1 = runCommandStatus os "open" ["-R", path] "open -R" ∧
    (reveal_on_windows os path).1 =
      runCommandStatus os "explorer"
        (if os.isDir path then [path] else ["/select," ++ path]) "explorer" ∧
    (reveal_on_unix ps os path).1 =
      runCommandStatus os "xdg-open" [claimedRevealFolder ps os path] "xdg-open" := by
  refine ⟨?_, ?_, ?_, rfl, ?_, ?_⟩
  · intro e he
    simp [runCommandStatus, he]
  · intro st hst hsucc
    simp [runCommandStatus, hst, hsucc]
  · constructor
    · intro h
      unfold runCommandStatus at h
      cases hsp : os.spawnStatus cmd args with
      | error e => rw [hsp] at h; cases h
      | ok st =>
          rw [hsp] at h
          by_cases hs : st.success = true
          · exact ⟨st, rfl, hs⟩
          · simp [hs] at h
    · rintro ⟨st, hsp, hs⟩
      simp [runCommandStatus, hsp, hs]
  · by_cases hdir : os.isDir path = true <;> simp [reveal_on_windows, hdir]
  · simp [reveal_on_unix, claimedRevealFolder]

/-- C7 witness: the status-handling theorem applied with the oracle whose
spawn always fails, at the command line `xdg-open /w`. -/
theorem reveal_status_error_handling_witness :
    osMissing.spawnStatus "xdg-open" ["/w"] = Except.error "spawn io error" ∧
    ((∀ e, osMissing.spawnStatus "xdg-open" ["/w"] = Except.error e →
        runCommandStatus osMissing "xdg-open" ["/w"] "xdg-open" = Except.error e) ∧
     (∀ st, osMissing.spawnStatus "xdg-open" ["/w"] = Except.ok st → st.success = false →
        runCommandStatus osMissing "xdg-open" ["/w"] "xdg-open" =
          Except.error ("xdg-open" ++ " exited with status: " ++ st.display)) ∧
     (runCommandStatus osMissing "xdg-open" ["/w"] "xdg-open" = Except.ok () ↔
       ∃ st, osMissing.spawnStatus "xdg-open" ["/w"] = Except.ok st ∧ st.success = true) ∧
     (reveal_on_macos osMissing "/w/f.txt").1 =
       runCommandStatus osMissing "open" ["-R", "/w/f.txt"] "open -R" ∧
     (reveal_on_windows osMissing "/w/f.txt").1 =
       runCommandStatus osMissing "explorer"
         (if osMissing.isDir "/w/f.txt" then ["/w/f.txt"]
          else ["/select," ++ "/w/f.txt"]) "explorer" ∧
     (reveal_on_unix psW osMissing "/w/f.txt").1 =
       runCommandStatus osMissing "xdg-open"
         [claimedRevealFolder psW osMissing "/w/f.txt"] "xdg-open") :=
  ⟨by rfl,
   reveal_status_error_handling psW osMissing "/w/f.txt" "xdg-open" "xdg-open" ["/w"]⟩

/-- C8: once the trim and existence checks pass, `get_file_metadata` fails
only when the initial `fs::metadata` read fails (propagating that message);
whenever the metadata read succeeds the call returns a successful result in
which a failed image-dimension probe leaves both dimension fields absent and
a failed timestamp read or epoch conversion leaves the modified field
absent, rather than erroring the call. -/
theorem metadata_fails_only_on_metadata_read (ps : PathSem) (os : OS)
    (s : String) (h1 : rustTrim s ≠ "")
    (h2 : os.pathExists (rustTrim s) = true) :
    (∀ e, os.metadata (rustTrim s) = Except.error e →
        (get_file_metadata ps os s).1 = Except.error e) ∧
    (∀ md, os.metadata (rustTrim s) = Except.ok md →
        ∃ r, (get_file_metadata ps os s).1 = Except.ok r ∧
          (∀ e, os.image_dimensions (rustTrim s) = Except.error e →
            r.width = none ∧ r.height = none) ∧
          (md.modified = none → r.modified_ms = none) ∧
          (∀ t, md.modified = some t → t.sinceEpochMillis = none →
            r.modified_ms = none)) := by
  constructor
  · intro e he
    simp [get_file_metadata, h1, h2, he]
  · intro md hmd
    simp only [get_file_metadata, h1, h2, hmd]
    refine ⟨_, rfl, ?_, ?_, ?_⟩
    · intro e he
      constructor <;> (simp only [he]; split <;> rfl)
    · intro hmod
      simp [hmod]
    · intro t hmod hnone
      simp [hmod, hnone]


/-- The metadata record the witness oracle `osExisting` returns. -/
def mdW : FileMetadata := { modified := some { sinceEpochMillis := some 1700000000000 } }

/-- Path oracle whose extension is the recognized image type "png", so the
dimension probe is actually attempted. -/
def psPng : PathSem :=
  { fileName := fun _ => some "f.png"
    extensionOf := fun _ => some "png"
    parent := fun _ => some "/w" }

/-- OS oracle on which every path exists but the dimension probe fails and
the modified-time read fails. -/
def osDimFail : OS :=
  { pathExists := fun _ => true
    isDir := fun _ => false
    metadata := fun _ => Except.ok { modified := none }
    image_dimensions := fun _ => Except.error "decode failed"
    trashDelete := fun _ => Except.ok ()
    spawnStatus := fun _ _ => Except.ok { success := true, display := "exit status: 0" } }

/-- The metadata record the oracle `osDimFail` returns: the modified() read
failed. -/
def mdN : FileMetadata := { modified := none }

/-- C8 witness: the metadata-totality theorem applied at the existing image
path "/w/f.png" on the oracle whose dimension probe and modified-time read
both fail. -/
theorem metadata_fails_only_on_metadata_read_witness :
    rustTrim "/w/f.png" ≠ "" ∧
    osDimFail.pathExists (rustTrim "/w/f.png") = true ∧
    osDimFail.metadata (rustTrim "/w/f.png") = Except.ok mdN ∧
    osDimFail.image_dimensions (rustTrim "/w/f.png") = Except.error "decode failed" ∧
    ((∀ e, osDimFail.metadata (rustTrim "/w/f.png") = Except.error e →
        (get_file_metadata psPng osDimFail "/w/f.png").1 = Except.error e) ∧
     (∀ md, osDimFail.metadata (rustTrim "/w/f.png") = Except.ok md →
        ∃ r, (get_file_metadata psPng osDimFail "/w/f.png").1 = Except.ok r ∧
          (∀ e, osDimFail.image_dimensions (rustTrim "/w/f.png") = Except.error e →
            r.width = none ∧ r.height = none) ∧
          (md.modified = none → r.modified_ms = none) ∧
          (∀ t, md.modified = some t → t.sinceEpochMillis = none →
            r.modified_ms = none))) :=
  ⟨by decide, by decide, by rfl, by rfl,
   metadata_fails_only_on_metadata_read psPng osDimFail "/w/f.png" (by decide) (by decide)⟩

/-- C9: when the trim, existence and metadata steps succeed, the call
succeeds and its last-modified field is the millisecond count since the
epoch, clamped to the largest 64-bit unsigned value when the count does not
fit in 64 bits; a failed OS time read or a failed duration-since-epoch
conversion each leave the field absent, and any present value fits in 64
bits. -/
theorem modified_ms_clamped_millis (ps : PathSem) (os : OS) (s : String)
    (md : FileMetadata) (h1 : rustTrim s ≠ "")
    (h2 : os.pathExists (rustTrim s) = true)
    (h3 : os.metadata (rustTrim s) = Except.ok md) :
    ∃ r, (get_file_metadata ps os s).1 = Except.ok r ∧
      (md.modified = none → r.modified_ms = none) ∧
      (∀ t, md.modified = some t → t.sinceEpochMillis = none →
        r.modified_ms = none) ∧
      (∀ t m, md.modified = some t → t.sinceEpochMillis = some m → m < 2 ^ 64 →
        r.modified_ms = some m) ∧
      (∀ t m, md.modified = some t → t.sinceEpochMillis = some m → 2 ^ 64 ≤ m →
        r.modified_ms = some (2 ^ 64 - 1)) ∧
      (∀ v, r.modified_ms = some v → v < 2 ^ 64) := by
  simp only [get_file_metadata, h1, h2, h3]
  refine ⟨_, rfl, ?_, ?_, ?_, ?_, ?_⟩
  · intro hmod
    simp [hmod]
  · intro t hmod hnone
    simp [hmod, hnone]
  · intro t m hmod hsome hlt
    have : ¬ m > u64Max := by
      unfold u64Max
      omega
    simp [hmod, hsome, this]
  · intro t m hmod hsome hle
    have hgt : m > u64Max := by
      unfold u64Max
      omega
    have hm : (if m > u64Max then u64Max else m) = 2 ^ 64 - 1 := by
      rw [if_pos hgt]
      rfl
    simp [hmod, hsome, hm]
  · intro v hv
    have h2 : (2 : Nat) ^ 64 = 18446744073709551616 := by norm_num
    have hu : u64Max = 18446744073709551615 := by
      unfold u64Max
      norm_num
    rcases hmod : md.modified with _ | t
    · simp [hmod] at hv
    · rcases hsome : t.sinceEpochMillis with _ | m
      · simp [hmod, hsome] at hv
      · simp [hmod, hsome] at hv
        split at hv <;> omega

/-- C9 witness: the clamping theorem applied at the existing path "/w/f.txt"
with metadata `mdW` (1700000000000 ms, below `2 ^ 64`). -/
theorem modified_ms_clamped_millis_witness :
    rustTrim "/w/f.txt" ≠ "" ∧
    osExisting.pathExists (rustTrim "/w/f.txt") = true ∧
    osExisting.metadata (rustTrim "/w/f.txt") = Except.ok mdW ∧
    (∃ r, (get_file_metadata psW osExisting "/w/f.txt").1 = Except.ok r ∧
      (mdW.modified = none → r.modified_ms = none) ∧
      (∀ t, mdW.modified = some t → t.sinceEpochMillis = none →
        r.modified_ms = none) ∧
      (∀ t m, mdW.modified = some t → t.sinceEpochMillis = some m → m < 2 ^ 64 →
        r.modified_ms = some m) ∧
      (∀ t m, mdW.modified = some t → t.sinceEpochMillis = some m → 2 ^ 64 ≤ m →
        r.modified_ms = some (2 ^ 64 - 1)) ∧
      (∀ v, r.modified_ms = some v → v < 2 ^ 64)) :=
  ⟨by decide, by decide, by rfl,
   modified_ms_clamped_millis psW osExisting "/w/f.txt" mdW (by decide) (by decide) (by rfl)⟩

/-- C10: every successful `get_file_metadata` result has its width and
height fields both present or both absent. -/
theorem width_height_both_or_neither (ps : PathSem) (os : OS) (s : String)
    (r : FileMetadataResult)
    (h : (get_file_metadata ps os s).1 = Except.ok r) :
    r.width.isSome = r.height.isSome := by
  by_cases h0 : rustTrim s = ""
  · rw [get_file_metadata] at h
    simp [h0] at h
  · by_cases hex : os.pathExists (rustTrim s) = true
    · rcases hmd : os.metadata (rustTrim s) with e | md
      · rw [get_file_metadata] at h
        simp [h0, hex, hmd] at h
      · rw [get_file_metadata] at h
        simp only [h0, hex, hmd, if_false, Bool.not_true, ite_false, ite_true,
          Bool.false_eq_true, reduceIte, Except.ok.injEq] at h
        subst h
        rcases hdim : os.image_dimensions (rustTrim s) with e | wh
        · simp only [hdim]
          split <;> rfl
        · simp only [hdim]
          split <;> rfl
    · rw [get_file_metadata] at h
      simp [h0, hex] at h

/-- The concrete successful result `get_file_metadata` produces for
"/w/f.txt" under the witness oracles. -/
def resW : FileMetadataResult :=
  { file_name := "f.txt", file_type := "TXT File", width := none,
    height := none, modified_ms := some 1700000000000 }

/-- C10 witness: the both-or-neither theorem applied at the concrete result
for "/w/f.txt". -/
theorem width_height_both_or_neither_witness :
    (get_file_metadata psW osExisting "/w/f.txt").1 = Except.ok resW ∧
    resW.width.isSome = resW.height.isSome :=
  ⟨by rfl,
   width_height_both_or_neither psW osExisting "/w/f.txt" resW (by rfl)⟩

end PromptLibraryExplorer
